import Mathlib

/-!
Verification of the frame scheduling and GPU resource lifecycle engine of
the `triangles::application` class (Vulkan geometry viewer).

The development shallowly embeds the relevant member functions of
`application` as pure Lean functions over explicit state records.  GPU-side
effects (command recording, queue submission, swapchain creation and
destruction) are modelled as traces of events; the external Vulkan results
(image acquisition, presentation) are inputs to the embedded functions.
Buffer sizes are measured in vertex elements, abstracting `sizeof(vertex)`.
-/

/-- Surface extent as reported by the window (`window().extent()`). -/
structure Extent where
  width : Nat
  height : Nat
deriving DecidableEq

/-- The three vertex-buffer categories held by the application:
`m_triangle_draw_info`, `m_wireframe_broad_draw_info`,
`m_wireframe_bbox_draw_info`. -/
inductive BufId where
  | triangle
  | broad
  | bbox
deriving DecidableEq

/-- Access masks appearing in the buffer memory barrier recorded by
`copy_to_device_memory`. -/
inductive AccessFlag where
  | transferWrite
  | vertexAttributeRead
deriving DecidableEq

/-- Pipeline stages appearing in the `pipelineBarrier` call of
`copy_to_device_memory`. -/
inductive PipelineStage where
  | transfer
  | vertexInput
deriving DecidableEq

/-- The two graphics pipelines bound by `fill_command_buffer`. -/
inductive PipelineId where
  | trianglePipeline
  | wireframePipeline
deriving DecidableEq

/-- Commands recorded into the primitives command buffer by
`fill_command_buffer` (and, transitively, `copy_to_device_memory`).
A `draw` is tagged with the vertex buffer bound immediately before it by
`submit_draw_info`, so that draws referencing a given buffer can be
identified. -/
inductive Cmd where
  | copyBuffer (buf : BufId) (size : Nat)
  | pipelineBarrier (srcStage dstStage : PipelineStage) (buf : BufId)
      (srcAccess dstAccess : AccessFlag) (size : Nat)
  | beginRenderPass (image_index : Nat)
  | setViewport (extent : Extent)
  | setScissor (extent : Extent)
  | bindDescriptorSets
  | bindPipeline (p : PipelineId)
  | bindVertexBuffers (buf : BufId)
  | draw (buf : BufId) (count : Nat)
  | endRenderPass
deriving DecidableEq

/-- State of one `vertex_draw_info` member: the atomic `loaded` and
`in_staging` flags, the element `count` and buffer `size`, and whether the
device-local buffer (`buf`) and the staging buffer currently exist. -/
structure VertexDrawInfo where
  loaded : Bool := false
  in_staging : Bool := false
  count : Nat := 0
  size : Nat := 0
  has_buf : Bool := false
  has_staging : Bool := false
deriving DecidableEq

/-- The slice of `application` state relevant to geometry loading and
command recording: the `m_data_loaded` flag, the three `vertex_draw_info`
members, and the two GUI toggles consulted by `fill_command_buffer`. -/
structure AppDrawState where
  data_loaded : Bool := false
  triangle_draw_info : VertexDrawInfo := {}
  wireframe_broad_draw_info : VertexDrawInfo := {}
  wireframe_bbox_draw_info : VertexDrawInfo := {}
  draw_broad_phase : Bool := false
  draw_bbox : Bool := false
deriving DecidableEq

/-- Select the `vertex_draw_info` member for a given category. -/
def AppDrawState.info : AppDrawState → BufId → VertexDrawInfo
  | s, BufId.triangle => s.triangle_draw_info
  | s, BufId.broad => s.wireframe_broad_draw_info
  | s, BufId.bbox => s.wireframe_bbox_draw_info

/-- Exceptions thrown by the embedded member functions (all are
`std::invalid_argument` in the source, distinguished by message). -/
inductive AppException where
  | alreadyLoaded
  | alreadyInitialized
  | notInitialized
deriving DecidableEq

/-- `ezvk::utils::sizeof_container`, with sizes measured in vertex
elements (abstracting the constant `sizeof` factor). -/
def sizeof_container (c : List Nat) : Nat := c.length

/-- `application::load_draw_info`: records count and size, creates the
staging buffer via `copy_to_staging_memory`, and publishes `in_staging`. -/
def load_draw_info (vertices : List Nat) (info : VertexDrawInfo) : VertexDrawInfo :=
  { info with
    count := vertices.length,
    size := sizeof_container vertices,
    has_staging := true,
    in_staging := true }

/-- The `input_data` argument of `load_input_data`: three vertex spans
(vertices abstracted to opaque `Nat`s). -/
structure InputData where
  tr_vert : List Nat
  broad_vert : List Nat
  bbox_vert : List Nat
deriving DecidableEq

/-- `application::load_input_data`.  Throws (second component `some e`)
when data was already loaded; otherwise stages each non-empty category and
sets `m_data_loaded`.  On a throw the first statement of the function
aborts it, so the state is returned unchanged. -/
def load_input_data (s : AppDrawState) (d : InputData) : AppDrawState × Option AppException :=
  if s.data_loaded then (s, some AppException.alreadyLoaded)
  else
    let s1 := if d.tr_vert.isEmpty then s
      else { s with triangle_draw_info := load_draw_info d.tr_vert s.triangle_draw_info }
    let s2 := if d.broad_vert.isEmpty then s1
      else { s1 with wireframe_broad_draw_info := load_draw_info d.broad_vert s1.wireframe_broad_draw_info }
    let s3 := if d.bbox_vert.isEmpty then s2
      else { s2 with wireframe_bbox_draw_info := load_draw_info d.bbox_vert s2.wireframe_bbox_draw_info }
    ({ s3 with data_loaded := true }, none)

/-- `application::copy_to_device_memory`: allocates the device-local
buffer, records a buffer-to-buffer copy of `info.size` bytes, then a
buffer memory barrier (transfer-write to vertex-attribute-read, transfer
stage to vertex-input stage) on the destination buffer. -/
def copy_to_device_memory (b : BufId) (info : VertexDrawInfo) : List Cmd × VertexDrawInfo :=
  ([Cmd.copyBuffer b info.size,
    Cmd.pipelineBarrier PipelineStage.transfer PipelineStage.vertexInput b
      AccessFlag.transferWrite AccessFlag.vertexAttributeRead info.size],
   { info with has_buf := true })

/-- The `submit_copy` lambda of `fill_command_buffer`: returns without
recording unless `info.in_staging`; otherwise promotes via
`copy_to_device_memory`, clears `in_staging` and sets `loaded`. -/
def submit_copy (b : BufId) (info : VertexDrawInfo) : List Cmd × VertexDrawInfo :=
  if info.in_staging then
    let r := copy_to_device_memory b info
    (r.1, { r.2 with in_staging := false, loaded := true })
  else ([], info)

/-- The `submit_draw_info` lambda of `fill_command_buffer`: records a
vertex-buffer bind and a draw only when the info converts to `true`
(its `operator bool` reads the `loaded` flag). -/
def submit_draw_info (b : BufId) (info : VertexDrawInfo) : List Cmd :=
  if info.loaded then [Cmd.bindVertexBuffers b, Cmd.draw b info.count] else []

/-- The draw section of `fill_command_buffer`: render pass begin, viewport,
scissor, descriptor sets, triangle pipeline and draw, wireframe pipeline
and the two optional wireframe draws, render pass end. -/
def draw_commands (tri broad bbox : VertexDrawInfo) (draw_broad_phase draw_bbox : Bool)
    (image_index : Nat) (extent : Extent) : List Cmd :=
  [Cmd.beginRenderPass image_index, Cmd.setViewport extent, Cmd.setScissor extent,
   Cmd.bindDescriptorSets, Cmd.bindPipeline PipelineId.trianglePipeline] ++
  submit_draw_info BufId.triangle tri ++
  [Cmd.bindPipeline PipelineId.wireframePipeline] ++
  (if draw_broad_phase then submit_draw_info BufId.broad broad else []) ++
  (if draw_bbox then submit_draw_info BufId.bbox bbox else []) ++
  [Cmd.endRenderPass]

/-- `application::fill_command_buffer`: first the promotion checks, in
source order triangle, bbox, broad; then the draw section, which observes
the post-promotion infos (the source mutates the members in place). -/
def fill_command_buffer (s : AppDrawState) (image_index : Nat) (extent : Extent) :
    List Cmd × AppDrawState :=
  let c1 := submit_copy BufId.triangle s.triangle_draw_info
  let c2 := submit_copy BufId.bbox s.wireframe_bbox_draw_info
  let c3 := submit_copy BufId.broad s.wireframe_broad_draw_info
  (c1.1 ++ c2.1 ++ c3.1 ++
     draw_commands c1.2 c3.2 c2.2 s.draw_broad_phase s.draw_bbox image_index extent,
   { s with triangle_draw_info := c1.2, wireframe_bbox_draw_info := c2.2,
            wireframe_broad_draw_info := c3.2 })

/-- Iterated command recording: one `fill_command_buffer` per frame, with
the per-frame image index drawn from the list; commands of all frames are
concatenated. -/
def run_frames (s : AppDrawState) (extent : Extent) : List Nat → List Cmd × AppDrawState
  | [] => ([], s)
  | i :: rest =>
      let r := fill_command_buffer s i extent
      let rr := run_frames r.2 extent rest
      (r.1 ++ rr.1, rr.2)

/-- Number of buffer-to-buffer copies recorded for category `b`. -/
def count_copies (b : BufId) (cmds : List Cmd) : Nat :=
  cmds.countP (fun c => match c with
    | Cmd.copyBuffer b2 _ => b2 == b
    | _ => false)

/-- Number of transfer-write to vertex-attribute-read barriers recorded
for category `b`. -/
def count_barriers (b : BufId) (cmds : List Cmd) : Nat :=
  cmds.countP (fun c => match c with
    | Cmd.pipelineBarrier _ _ b2 sa da _ =>
        b2 == b && sa == AccessFlag.transferWrite && da == AccessFlag.vertexAttributeRead
    | _ => false)

/-- Number of draws referencing category `b`. -/
def count_draws (b : BufId) (cmds : List Cmd) : Nat :=
  cmds.countP (fun c => match c with
    | Cmd.draw b2 _ => b2 == b
    | _ => false)

/-- Events performed by `application::recreate_swap_chain`.  Swapchain
generations are identified by abstract `Nat` handles. -/
inductive RebuildEvent where
  | createSwapchain (extent : Extent) (oldSwapchain : Nat)
  | waitIdle
  | destroySwapchain (chain : Nat)
  | setMinImageCount
  | recreateDepthBuffer (extent : Extent)
  | recreateFramebuffers (extent : Extent)
  | recreateImguiFramebuffers (extent : Extent)
deriving DecidableEq

/-- The extent-polling `while` loop at the head of `recreate_swap_chain`:
the list holds the successive values returned by `window().extent()`;
the loop body re-polls (and waits for window events) until both dimensions
are non-zero.  `none` models the loop spinning forever because the window
never reports a non-degenerate extent. -/
def poll_until_nondegenerate : List Extent → Option Extent
  | [] => none
  | e :: rest =>
      if e.width == 0 || e.height == 0 then poll_until_nondegenerate rest else some e

/-- `application::recreate_swap_chain`: poll for a usable extent, create
the new swapchain passing the old one as the creation hint, wait for the
device to idle, destroy the old chain, then rebuild every dependent
image-sized resource.  `new_chain` is the handle the driver assigns to the
newly created swapchain. -/
def recreate_swap_chain (old_chain new_chain : Nat) (polls : List Extent) :
    Option (List RebuildEvent × Nat) :=
  match poll_until_nondegenerate polls with
  | none => none
  | some extent =>
      some ([RebuildEvent.createSwapchain extent old_chain,
             RebuildEvent.waitIdle,
             RebuildEvent.destroySwapchain old_chain,
             RebuildEvent.setMinImageCount,
             RebuildEvent.recreateDepthBuffer extent,
             RebuildEvent.recreateFramebuffers extent,
             RebuildEvent.recreateImguiFramebuffers extent], new_chain)

/-- Truth of `RebuildEvent` being a swapchain destruction. -/
def is_destroy_event : RebuildEvent → Bool
  | RebuildEvent.destroySwapchain _ => true
  | _ => false

/-- Result of `presentKHR` as observed by `render_frame` (the
`vk::OutOfDateKHRError` exception is folded into
`eErrorOutOfDateKHR` by the source itself). -/
inductive PresentResult where
  | success
  | suboptimalKHR
  | errorOutOfDateKHR
deriving DecidableEq

/-- Scheduler-level events performed by `application::render_frame`, in
program order. -/
inductive RenderEvent where
  | waitFence (slot : Nat)
  | acquireImage
  | recordPrimitives (slot image_index : Nat)
  | recordImgui (slot image_index : Nat)
  | updateUniform (slot : Nat)
  | resetFence (slot : Nat)
  | submitWork (slot : Nat)
  | presentImage (slot image_index : Nat)
  | rebuildSwapchain
deriving DecidableEq

/-- Truth of a `RenderEvent` being a queue submission. -/
def is_submit_event : RenderEvent → Bool
  | RenderEvent.submitWork _ => true
  | _ => false

/-- Truth of a `RenderEvent` being a fence reset. -/
def is_reset_fence_event : RenderEvent → Bool
  | RenderEvent.resetFence _ => true
  | _ => false

/-- Truth of a `RenderEvent` being command-buffer recording (primitives or
GUI). -/
def is_record_event : RenderEvent → Bool
  | RenderEvent.recordPrimitives _ _ => true
  | RenderEvent.recordImgui _ _ => true
  | _ => false

/-- `c_max_frames_in_flight` (double buffering). -/
def c_max_frames_in_flight : Nat := 2

/-- Result of one `render_frame` call: the event trace, the commands
recorded into the primitives command buffer, the updated draw state, the
updated `m_curr_frame`, and the updated host-visible fence states
(`true` = signaled). -/
structure RenderResult where
  events : List RenderEvent
  recorded : List Cmd
  draw : AppDrawState
  curr_frame : Nat
  fences : Nat → Bool

/-- `application::render_frame`.  `acq` is the outcome of
`acquireNextImage2KHR` (`Except.error ()` models the
`vk::OutOfDateKHRError` catch); `pres` the outcome of `presentKHR`.  On a
stale acquire the function rebuilds the swapchain and returns early:
nothing is recorded or submitted, the fence is not reset, and
`m_curr_frame` is not advanced.  Otherwise it records both command
buffers, rewrites the slot's uniform buffer, resets the slot fence, then
submits and presents, rebuilding afterwards when the present reported
suboptimal or out of date, and finally advances `m_curr_frame`. -/
def render_frame (curr_frame : Nat) (draw : AppDrawState) (fences : Nat → Bool)
    (extent : Extent) (acq : Except Unit Nat) (pres : PresentResult) : RenderResult :=
  match acq with
  | Except.error _ =>
      { events := [RenderEvent.waitFence curr_frame, RenderEvent.acquireImage,
                   RenderEvent.rebuildSwapchain],
        recorded := [],
        draw := draw,
        curr_frame := curr_frame,
        fences := fences }
  | Except.ok image_index =>
      let r := fill_command_buffer draw image_index extent
      { events :=
          [RenderEvent.waitFence curr_frame, RenderEvent.acquireImage,
           RenderEvent.recordPrimitives curr_frame image_index,
           RenderEvent.recordImgui curr_frame image_index,
           RenderEvent.updateUniform curr_frame,
           RenderEvent.resetFence curr_frame,
           RenderEvent.submitWork curr_frame,
           RenderEvent.presentImage curr_frame image_index] ++
          (match pres with
           | PresentResult.success => []
           | PresentResult.suboptimalKHR => [RenderEvent.rebuildSwapchain]
           | PresentResult.errorOutOfDateKHR => [RenderEvent.rebuildSwapchain]),
        recorded := r.1,
        draw := r.2,
        curr_frame := (curr_frame + 1) % c_max_frames_in_flight,
        fences := fun i => if i = curr_frame then false else fences i }

/-- The timing state consulted by `application::loop`:
`m_first_frame` and `m_prev_frame_start` (time points as abstract integer
ticks, abstracting the floating-point `duration` conversion). -/
structure LoopTimingState where
  first_frame : Bool
  prev_frame_start : Int
deriving DecidableEq

/-- The timing prologue of `application::loop`: on the first frame no
physics update runs (the result's first component is `none`) and the flag
is cleared; afterwards `physics_loop` is called with the elapsed time
since the previous frame start.  Both branches then store the current
time point. -/
def loop_step (s : LoopTimingState) (current_time : Int) : Option Int × LoopTimingState :=
  if s.first_frame then
    (none, { first_frame := false, prev_frame_start := current_time })
  else
    (some (current_time - s.prev_frame_start),
     { s with prev_frame_start := current_time })

/-- Iterated `loop` timing prologue over the list of per-iteration start
times; yields the argument passed to `physics_loop` on each iteration
(`none` when the call is skipped). -/
def run_loop (s : LoopTimingState) : List Int → List (Option Int)
  | [] => []
  | t :: ts =>
      let r := loop_step s t
      r.1 :: run_loop r.2 ts

/-- `application::singleton_helper::get`.  `m_instance` is the stored
instance (applications are identified by the platform value they were
constructed from); `platform` the optional argument.  Returns the updated
`m_instance` and either the accessed instance or the thrown
`std::invalid_argument`.  On a throw the state is unchanged. -/
def singleton_get (m_instance : Option Nat) (platform : Option Nat) :
    Option Nat × Except AppException Nat :=
  match platform with
  | some p =>
      match m_instance with
      | some i => (some i, Except.error AppException.alreadyInitialized)
      | none => (some p, Except.ok p)
  | none =>
      match m_instance with
      | none => (none, Except.error AppException.notInitialized)
      | some i => (some i, Except.ok i)

/-- Named predicate: command is a buffer copy into category `b`. -/
def is_copy_for (b : BufId) : Cmd → Bool
  | Cmd.copyBuffer b2 _ => b2 == b
  | _ => false

/-- Named predicate: command is the promotion barrier for category `b`. -/
def is_barrier_for (b : BufId) : Cmd → Bool
  | Cmd.pipelineBarrier _ _ b2 sa da _ =>
      b2 == b && sa == AccessFlag.transferWrite && da == AccessFlag.vertexAttributeRead
  | _ => false

/-- Named predicate: command is a draw referencing category `b`. -/
def is_draw_for (b : BufId) : Cmd → Bool
  | Cmd.draw b2 _ => b2 == b
  | _ => false

/-- Application state fresh out of the constructor: nothing loaded. -/
def init_app_state : AppDrawState := {}

/-- Application state right after staging three triangle vertices. -/
def staged_app_state : AppDrawState :=
  { triangle_draw_info := { in_staging := true, has_staging := true, count := 3, size := 3 } }

/-- An `input_data` with zero-element spans in every category. -/
def empty_input : InputData := ⟨[], [], []⟩

/-- An `input_data` carrying three triangle vertices. -/
def sample_input : InputData := ⟨[10, 20, 30], [], []⟩

/-- Window extents polled during a rebuild while the surface is minimized:
two degenerate readings, then a usable one. -/
def sample_polls : List Extent := [⟨0, 600⟩, ⟨800, 0⟩, ⟨800, 600⟩]

/-- The rebuild trace produced from `sample_polls` for old chain 7. -/
def sample_rebuild_events : List RebuildEvent :=
  [RebuildEvent.createSwapchain ⟨800, 600⟩ 7,
   RebuildEvent.waitIdle,
   RebuildEvent.destroySwapchain 7,
   RebuildEvent.setMinImageCount,
   RebuildEvent.recreateDepthBuffer ⟨800, 600⟩,
   RebuildEvent.recreateFramebuffers ⟨800, 600⟩,
   RebuildEvent.recreateImguiFramebuffers ⟨800, 600⟩]

lemma count_copies_eq_countP (b : BufId) (cmds : List Cmd) :
    count_copies b cmds = cmds.countP (is_copy_for b) := by
  unfold count_copies is_copy_for
  rfl

lemma count_barriers_eq_countP (b : BufId) (cmds : List Cmd) :
    count_barriers b cmds = cmds.countP (is_barrier_for b) := by
  unfold count_barriers is_barrier_for
  rfl

lemma count_draws_eq_countP (b : BufId) (cmds : List Cmd) :
    count_draws b cmds = cmds.countP (is_draw_for b) := by
  unfold count_draws is_draw_for
  rfl

lemma count_copies_append (b : BufId) (l1 l2 : List Cmd) :
    count_copies b (l1 ++ l2) = count_copies b l1 + count_copies b l2 := by
  simp [count_copies_eq_countP, List.countP_append]

lemma count_barriers_append (b : BufId) (l1 l2 : List Cmd) :
    count_barriers b (l1 ++ l2) = count_barriers b l1 + count_barriers b l2 := by
  simp [count_barriers_eq_countP, List.countP_append]

lemma count_draws_append (b : BufId) (l1 l2 : List Cmd) :
    count_draws b (l1 ++ l2) = count_draws b l1 + count_draws b l2 := by
  simp [count_draws_eq_countP, List.countP_append]

lemma submit_copy_staged (b : BufId) (info : VertexDrawInfo) (h : info.in_staging = true) :
    submit_copy b info =
      ([Cmd.copyBuffer b info.size,
        Cmd.pipelineBarrier PipelineStage.transfer PipelineStage.vertexInput b
          AccessFlag.transferWrite AccessFlag.vertexAttributeRead info.size],
       { info with has_buf := true, in_staging := false, loaded := true }) := by
  simp [submit_copy, copy_to_device_memory, h]

lemma submit_copy_not_staged (b : BufId) (info : VertexDrawInfo) (h : info.in_staging = false) :
    submit_copy b info = ([], info) := by
  simp [submit_copy, h]

lemma submit_copy_in_staging (b : BufId) (info : VertexDrawInfo) :
    (submit_copy b info).2.in_staging = false := by
  cases h : info.in_staging <;> simp [submit_copy, copy_to_device_memory, h]

lemma submit_copy_loaded (b : BufId) (info : VertexDrawInfo) :
    (submit_copy b info).2.loaded = (info.in_staging || info.loaded) := by
  cases h : info.in_staging <;> simp [submit_copy, copy_to_device_memory, h]

lemma count_copies_submit_copy (b b2 : BufId) (info : VertexDrawInfo) :
    count_copies b (submit_copy b2 info).1 =
      if b2 = b ∧ info.in_staging = true then 1 else 0 := by
  cases h : info.in_staging <;> cases b <;> cases b2 <;>
    simp [submit_copy, copy_to_device_memory, count_copies_eq_countP, is_copy_for, h,
      List.countP_cons, List.countP_nil]

lemma count_barriers_submit_copy (b b2 : BufId) (info : VertexDrawInfo) :
    count_barriers b (submit_copy b2 info).1 =
      if b2 = b ∧ info.in_staging = true then 1 else 0 := by
  cases h : info.in_staging <;> cases b <;> cases b2 <;>
    simp [submit_copy, copy_to_device_memory, count_barriers_eq_countP, is_barrier_for, h,
      List.countP_cons, List.countP_nil]

lemma count_draws_submit_copy (b b2 : BufId) (info : VertexDrawInfo) :
    count_draws b (submit_copy b2 info).1 = 0 := by
  cases h : info.in_staging <;>
    simp [submit_copy, copy_to_device_memory, count_draws_eq_countP, is_draw_for, h,
      List.countP_cons, List.countP_nil]

lemma count_copies_submit_draw_info (b b2 : BufId) (info : VertexDrawInfo) :
    count_copies b (submit_draw_info b2 info) = 0 := by
  cases h : info.loaded <;>
    simp [submit_draw_info, count_copies_eq_countP, is_copy_for, h,
      List.countP_cons, List.countP_nil]

lemma count_barriers_submit_draw_info (b b2 : BufId) (info : VertexDrawInfo) :
    count_barriers b (submit_draw_info b2 info) = 0 := by
  cases h : info.loaded <;>
    simp [submit_draw_info, count_barriers_eq_countP, is_barrier_for, h,
      List.countP_cons, List.countP_nil]

lemma count_copies_draw_commands (b : BufId) (tri broad bbox : VertexDrawInfo)
    (f g : Bool) (ii : Nat) (e : Extent) :
    count_copies b (draw_commands tri broad bbox f g ii e) = 0 := by
  cases f <;> cases g <;> cases h1 : tri.loaded <;> cases h2 : broad.loaded <;>
      cases h3 : bbox.loaded <;>
    simp [draw_commands, submit_draw_info, h1, h2, h3,
      count_copies_eq_countP, is_copy_for, List.countP_cons, List.countP_nil,
      List.countP_append]

lemma count_barriers_draw_commands (b : BufId) (tri broad bbox : VertexDrawInfo)
    (f g : Bool) (ii : Nat) (e : Extent) :
    count_barriers b (draw_commands tri broad bbox f g ii e) = 0 := by
  cases f <;> cases g <;> cases h1 : tri.loaded <;> cases h2 : broad.loaded <;>
      cases h3 : bbox.loaded <;>
    simp [draw_commands, submit_draw_info, h1, h2, h3,
      count_barriers_eq_countP, is_barrier_for, List.countP_cons, List.countP_nil,
      List.countP_append]

lemma fill_command_buffer_fst (s : AppDrawState) (ii : Nat) (e : Extent) :
    (fill_command_buffer s ii e).1 =
      (submit_copy BufId.triangle s.triangle_draw_info).1 ++
      (submit_copy BufId.bbox s.wireframe_bbox_draw_info).1 ++
      (submit_copy BufId.broad s.wireframe_broad_draw_info).1 ++
      draw_commands (submit_copy BufId.triangle s.triangle_draw_info).2
        (submit_copy BufId.broad s.wireframe_broad_draw_info).2
        (submit_copy BufId.bbox s.wireframe_bbox_draw_info).2
        s.draw_broad_phase s.draw_bbox ii e := rfl

lemma fill_command_buffer_info (s : AppDrawState) (ii : Nat) (e : Extent) (b : BufId) :
    (fill_command_buffer s ii e).2.info b = (submit_copy b (s.info b)).2 := by
  cases b <;> rfl

lemma count_copies_fill (b : BufId) (s : AppDrawState) (ii : Nat) (e : Extent) :
    count_copies b (fill_command_buffer s ii e).1 =
      if (s.info b).in_staging = true then 1 else 0 := by
  cases b <;>
    simp [fill_command_buffer_fst, AppDrawState.info, count_copies_append,
      count_copies_submit_copy, count_copies_draw_commands]

lemma count_barriers_fill (b : BufId) (s : AppDrawState) (ii : Nat) (e : Extent) :
    count_barriers b (fill_command_buffer s ii e).1 =
      if (s.info b).in_staging = true then 1 else 0 := by
  cases b <;>
    simp [fill_command_buffer_fst, AppDrawState.info, count_barriers_append,
      count_barriers_submit_copy, count_barriers_draw_commands]

lemma run_frames_not_staged (b : BufId) (e : Extent) :
    ∀ (frames : List Nat) (s : AppDrawState), (s.info b).in_staging = false →
      count_copies b (run_frames s e frames).1 = 0 ∧
      count_barriers b (run_frames s e frames).1 = 0 ∧
      ((run_frames s e frames).2.info b).in_staging = false ∧
      ((run_frames s e frames).2.info b).loaded = (s.info b).loaded := by
  intro frames
  induction frames with
  | nil =>
      intro s h
      refine ⟨by simp [run_frames, count_copies_eq_countP], by simp [run_frames, count_barriers_eq_countP], ?_, ?_⟩
      · simpa [run_frames] using h
      · simp [run_frames]
  | cons i rest ih =>
      intro s h
      have hstay : ((fill_command_buffer s i e).2.info b).in_staging = false := by
        rw [fill_command_buffer_info]
        exact submit_copy_in_staging b (s.info b)
      have hload : ((fill_command_buffer s i e).2.info b).loaded = (s.info b).loaded := by
        rw [fill_command_buffer_info, submit_copy_loaded, h]
        simp
      obtain ⟨ih1, ih2, ih3, ih4⟩ := ih (fill_command_buffer s i e).2 hstay
      refine ⟨?_, ?_, ?_, ?_⟩
      · simp [run_frames, count_copies_append, count_copies_fill, h, ih1]
      · simp [run_frames, count_barriers_append, count_barriers_fill, h, ih2]
      · simpa [run_frames] using ih3
      · simp only [run_frames]
        rw [ih4, hload]

lemma poll_nondegenerate : ∀ (polls : List Extent) (e : Extent),
    poll_until_nondegenerate polls = some e → 0 < e.width ∧ 0 < e.height := by
  intro polls
  induction polls with
  | nil => intro e h; cases h
  | cons x rest ih =>
      intro e h
      by_cases hx : (x.width == 0 || x.height == 0) = true
      · rw [poll_until_nondegenerate, if_pos hx] at h
        exact ih e h
      · rw [poll_until_nondegenerate, if_neg hx] at h
        cases h
        simp only [Bool.or_eq_true, beq_iff_eq, not_or] at hx
        exact ⟨Nat.pos_of_ne_zero hx.1, Nat.pos_of_ne_zero hx.2⟩

lemma run_loop_not_first : ∀ (ts : List Int) (p : Int),
    run_loop ⟨false, p⟩ ts = List.zipWith (fun a b => some (a - b)) ts (p :: ts) := by
  intro ts
  induction ts with
  | nil => intro p; rfl
  | cons u us ih =>
      intro p
      simp [run_loop, loop_step, ih u]

/-- C1 (counterexample): the claim that the frame slot index is advanced
to (i+1) mod N at the end of the loop body also on an iteration where
acquire reported the surface out of date is false: at slot 0, a
stale-acquire `render_frame` returns early with the slot index still 0,
not (0+1) mod 2. -/
theorem c1_stale_acquire_keeps_slot_counterexample :
    (render_frame 0 init_app_state (fun _ => true) ⟨800, 600⟩ (Except.error ())
        PresentResult.success).curr_frame ≠ (0 + 1) % c_max_frames_in_flight := by
  decide

/-- C1 (amended): the frame slot index advances to (i+1) mod N at the end
of every iteration in which image acquisition succeeds — in particular
also when the present step reports SUBOPTIMAL or OUT_OF_DATE and a
swapchain rebuild occurs — but on an iteration where acquire reports the
surface out of date, `render_frame` returns early and the slot index is
left unchanged. -/
theorem c1_slot_advance_amended (curr : Nat) (draw : AppDrawState) (fences : Nat → Bool)
    (e : Extent) (ii : Nat) (pres : PresentResult) :
    (render_frame curr draw fences e (Except.ok ii) pres).curr_frame =
      (curr + 1) % c_max_frames_in_flight ∧
    (render_frame curr draw fences e (Except.error ()) pres).curr_frame = curr :=
  ⟨rfl, rfl⟩

/-- C2: on a frame where image acquisition reports the surface out of
date, the scheduler records no commands (neither the primitives nor the
GUI command buffer), submits no work, does not reset the slot's in-flight
fence (all host-visible fence states are unchanged, so the slot's fence
stays signaled for the next frame), leaves the draw state untouched, and
invokes the swapchain rebuild as its final action before returning. -/
theorem c2_stale_frame_aborts (curr : Nat) (draw : AppDrawState) (fences : Nat → Bool)
    (e : Extent) (pres : PresentResult) :
    (render_frame curr draw fences e (Except.error ()) pres).recorded = [] ∧
    (render_frame curr draw fences e (Except.error ()) pres).events.filter is_submit_event
      = [] ∧
    (render_frame curr draw fences e (Except.error ()) pres).events.filter
      is_reset_fence_event = [] ∧
    (render_frame curr draw fences e (Except.error ()) pres).events.filter is_record_event
      = [] ∧
    (render_frame curr draw fences e (Except.error ()) pres).fences = fences ∧
    (render_frame curr draw fences e (Except.error ()) pres).draw = draw ∧
    (render_frame curr draw fences e (Except.error ()) pres).events.getLast?
      = some RenderEvent.rebuildSwapchain :=
  ⟨rfl, rfl, rfl, rfl, rfl, rfl, rfl⟩

/-- C9: over a run of `loop` iterations starting in the initial timing
state, the first iteration performs no physics update at all, and every
subsequent iteration calls `physics_loop` with the elapsed time since the
previous iteration's start. -/
theorem c9_first_frame_skips_physics (p0 t : Int) (ts : List Int) :
    run_loop ⟨true, p0⟩ (t :: ts) =
      none :: List.zipWith (fun a b => some (a - b)) ts (t :: ts) := by
  simp [run_loop, loop_step, run_loop_not_first]

/-- C10: `singleton_helper::get` fails in exactly two of the four possible
cases: with a platform argument while an instance exists (throwing
already-initialized and leaving the stored instance unchanged) and without
a platform argument before any instance exists (throwing
not-initialized); in the remaining two cases it returns the unique
instance (creating it from the platform when given one). -/
theorem c10_singleton_get_cases (i p : Nat) :
    singleton_get (some i) (some p) =
      (some i, Except.error AppException.alreadyInitialized) ∧
    singleton_get none none = (none, Except.error AppException.notInitialized) ∧
    singleton_get (some i) none = (some i, Except.ok i) ∧
    singleton_get none (some p) = (some p, Except.ok p) :=
  ⟨rfl, rfl, rfl, rfl⟩

/-- C3: promotion of an uploadable buffer is idempotent: starting from a
state where category `b` is staged, any non-empty sequence of command
recordings records exactly one device-local copy and one promotion
barrier for `b` in total; afterwards the buffer is resident (`loaded` set,
`in_staging` clear) and the per-frame promotion check (`submit_copy`) on
the now-resident buffer is a no-op rather than an error. -/
theorem c3_promotion_idempotent (s : AppDrawState) (b : BufId) (e : Extent)
    (i : Nat) (frames : List Nat) (h : (s.info b).in_staging = true) :
    count_copies b (run_frames s e (i :: frames)).1 = 1 ∧
    count_barriers b (run_frames s e (i :: frames)).1 = 1 ∧
    ((run_frames s e (i :: frames)).2.info b).in_staging = false ∧
    ((run_frames s e (i :: frames)).2.info b).loaded = true ∧
    submit_copy b ((run_frames s e (i :: frames)).2.info b) =
      ([], (run_frames s e (i :: frames)).2.info b) := by
  have hstay : ((fill_command_buffer s i e).2.info b).in_staging = false := by
    rw [fill_command_buffer_info]
    exact submit_copy_in_staging b (s.info b)
  have hload : ((fill_command_buffer s i e).2.info b).loaded = true := by
    rw [fill_command_buffer_info, submit_copy_loaded, h]
    simp
  obtain ⟨r1, r2, r3, r4⟩ :=
    run_frames_not_staged b e frames (fill_command_buffer s i e).2 hstay
  have hfin : ((run_frames s e (i :: frames)).2.info b).in_staging = false := by
    simpa [run_frames] using r3
  refine ⟨?_, ?_, hfin, ?_, submit_copy_not_staged b _ hfin⟩
  · simp [run_frames, count_copies_append, count_copies_fill, h, r1]
  · simp [run_frames, count_barriers_append, count_barriers_fill, h, r2]
  · simp only [run_frames]
    rw [r4, hload]

/-- C3 (witness): concrete run of three recorded frames starting from a
staged triangle buffer. -/
theorem c3_promotion_idempotent_witness :
    (staged_app_state.info BufId.triangle).in_staging = true ∧
    (count_copies BufId.triangle
        (run_frames staged_app_state ⟨800, 600⟩ (0 :: [1, 0])).1 = 1 ∧
     count_barriers BufId.triangle
        (run_frames staged_app_state ⟨800, 600⟩ (0 :: [1, 0])).1 = 1 ∧
     ((run_frames staged_app_state ⟨800, 600⟩ (0 :: [1, 0])).2.info
        BufId.triangle).in_staging = false ∧
     ((run_frames staged_app_state ⟨800, 600⟩ (0 :: [1, 0])).2.info
        BufId.triangle).loaded = true ∧
     submit_copy BufId.triangle
        ((run_frames staged_app_state ⟨800, 600⟩ (0 :: [1, 0])).2.info BufId.triangle) =
        ([], (run_frames staged_app_state ⟨800, 600⟩ (0 :: [1, 0])).2.info
          BufId.triangle)) :=
  ⟨by decide,
   c3_promotion_idempotent staged_app_state BufId.triangle ⟨800, 600⟩ 0 [1, 0] (by decide)⟩

/-- C4: every command buffer that promotes a staged vertex buffer records
the buffer-to-buffer copy first, then the transfer-write to
vertex-attribute-read memory barrier on that buffer, and both strictly
before any draw command referencing that buffer: the recorded stream
splits around the copy and the barrier with no draw of that buffer (and no
copy of it) before the barrier. -/
theorem c4_copy_barrier_before_draw (s : AppDrawState) (b : BufId) (ii : Nat) (e : Extent)
    (h : (s.info b).in_staging = true) :
    ∃ pre mid post : List Cmd, ∃ sz1 sz2 : Nat,
      (fill_command_buffer s ii e).1 =
        pre ++ (Cmd.copyBuffer b sz1 :: mid) ++
          (Cmd.pipelineBarrier PipelineStage.transfer PipelineStage.vertexInput b
            AccessFlag.transferWrite AccessFlag.vertexAttributeRead sz2 :: post) ∧
      count_draws b pre = 0 ∧ count_draws b mid = 0 ∧ count_copies b pre = 0 := by
  cases b with
  | triangle =>
      simp only [AppDrawState.info] at h
      refine ⟨[], [],
        (submit_copy BufId.bbox s.wireframe_bbox_draw_info).1 ++
          (submit_copy BufId.broad s.wireframe_broad_draw_info).1 ++
          draw_commands (submit_copy BufId.triangle s.triangle_draw_info).2
            (submit_copy BufId.broad s.wireframe_broad_draw_info).2
            (submit_copy BufId.bbox s.wireframe_bbox_draw_info).2
            s.draw_broad_phase s.draw_bbox ii e,
        s.triangle_draw_info.size, s.triangle_draw_info.size, ?_, by decide, by decide,
        by decide⟩
      rw [fill_command_buffer_fst, submit_copy_staged BufId.triangle _ h]
      simp
  | bbox =>
      simp only [AppDrawState.info] at h
      refine ⟨(submit_copy BufId.triangle s.triangle_draw_info).1, [],
        (submit_copy BufId.broad s.wireframe_broad_draw_info).1 ++
          draw_commands (submit_copy BufId.triangle s.triangle_draw_info).2
            (submit_copy BufId.broad s.wireframe_broad_draw_info).2
            (submit_copy BufId.bbox s.wireframe_bbox_draw_info).2
            s.draw_broad_phase s.draw_bbox ii e,
        s.wireframe_bbox_draw_info.size, s.wireframe_bbox_draw_info.size, ?_,
        count_draws_submit_copy BufId.bbox BufId.triangle _, by decide,
        by simp [count_copies_submit_copy]⟩
      rw [fill_command_buffer_fst, submit_copy_staged BufId.bbox _ h]
      simp
  | broad =>
      simp only [AppDrawState.info] at h
      refine ⟨(submit_copy BufId.triangle s.triangle_draw_info).1 ++
          (submit_copy BufId.bbox s.wireframe_bbox_draw_info).1, [],
        draw_commands (submit_copy BufId.triangle s.triangle_draw_info).2
          (submit_copy BufId.broad s.wireframe_broad_draw_info).2
          (submit_copy BufId.bbox s.wireframe_bbox_draw_info).2
          s.draw_broad_phase s.draw_bbox ii e,
        s.wireframe_broad_draw_info.size, s.wireframe_broad_draw_info.size, ?_,
        by simp [count_draws_append, count_draws_submit_copy], by decide,
        by simp [count_copies_append, count_copies_submit_copy]⟩
      rw [fill_command_buffer_fst, submit_copy_staged BufId.broad _ h]
      simp

/-- C4 (witness): concrete command buffer recorded from a staged triangle
buffer. -/
theorem c4_copy_barrier_before_draw_witness :
    (staged_app_state.info BufId.triangle).in_staging = true ∧
    (∃ pre mid post : List Cmd, ∃ sz1 sz2 : Nat,
      (fill_command_buffer staged_app_state 0 ⟨800, 600⟩).1 =
        pre ++ (Cmd.copyBuffer BufId.triangle sz1 :: mid) ++
          (Cmd.pipelineBarrier PipelineStage.transfer PipelineStage.vertexInput
            BufId.triangle AccessFlag.transferWrite AccessFlag.vertexAttributeRead sz2
            :: post) ∧
      count_draws BufId.triangle pre = 0 ∧ count_draws BufId.triangle mid = 0 ∧
      count_copies BufId.triangle pre = 0) :=
  ⟨by decide,
   c4_copy_barrier_before_draw staged_app_state BufId.triangle 0 ⟨800, 600⟩ (by decide)⟩

/-- C5: whenever `recreate_swap_chain` completes, the extent it used to
create the new swapchain is non-degenerate: the extent-polling loop only
stops at a reading with both dimensions non-zero, so the chain created
(first event of the rebuild, with the old chain as hint) has positive
width and height. -/
theorem c5_rebuild_nondegenerate_extent (old nc : Nat) (polls : List Extent)
    (evts : List RebuildEvent) (nh : Nat)
    (h : recreate_swap_chain old nc polls = some (evts, nh)) :
    ∃ e : Extent, 0 < e.width ∧ 0 < e.height ∧
      evts.head? = some (RebuildEvent.createSwapchain e old) := by
  cases hp : poll_until_nondegenerate polls with
  | none =>
      rw [recreate_swap_chain, hp] at h
      cases h
  | some ex =>
      rw [recreate_swap_chain, hp] at h
      simp only [Option.some.injEq, Prod.mk.injEq] at h
      obtain ⟨hevts, -⟩ := h
      obtain ⟨hw, hh⟩ := poll_nondegenerate polls ex hp
      exact ⟨ex, hw, hh, by rw [← hevts]; rfl⟩

/-- C5 (witness): rebuild while the window first reports two degenerate
extents. -/
theorem c5_rebuild_nondegenerate_extent_witness :
    recreate_swap_chain 7 8 sample_polls = some (sample_rebuild_events, 8) ∧
    (∃ e : Extent, 0 < e.width ∧ 0 < e.height ∧
      sample_rebuild_events.head? = some (RebuildEvent.createSwapchain e 7)) :=
  ⟨by decide,
   c5_rebuild_nondegenerate_extent 7 8 sample_polls sample_rebuild_events 8 (by decide)⟩

/-- C6: during every completed swapchain rebuild, the new chain is created
(with the old chain passed as the creation hint) strictly before the old
chain is destroyed: the event trace splits around the creation and the
destruction of the old chain, with no destruction occurring before the
creation. -/
theorem c6_create_before_destroy (old nc : Nat) (polls : List Extent)
    (evts : List RebuildEvent) (nh : Nat)
    (h : recreate_swap_chain old nc polls = some (evts, nh)) :
    ∃ e : Extent, ∃ pre mid post : List RebuildEvent,
      evts = pre ++ (RebuildEvent.createSwapchain e old :: mid) ++
        (RebuildEvent.destroySwapchain old :: post) ∧
      pre.countP is_destroy_event = 0 ∧ mid.countP is_destroy_event = 0 := by
  cases hp : poll_until_nondegenerate polls with
  | none =>
      rw [recreate_swap_chain, hp] at h
      cases h
  | some ex =>
      rw [recreate_swap_chain, hp] at h
      simp only [Option.some.injEq, Prod.mk.injEq] at h
      obtain ⟨hevts, -⟩ := h
      refine ⟨ex, [], [RebuildEvent.waitIdle],
        [RebuildEvent.setMinImageCount, RebuildEvent.recreateDepthBuffer ex,
         RebuildEvent.recreateFramebuffers ex, RebuildEvent.recreateImguiFramebuffers ex],
        ?_, rfl, rfl⟩
      rw [← hevts]
      rfl

/-- C6 (witness): the rebuild trace from `sample_polls` creates the new
chain before destroying chain 7. -/
theorem c6_create_before_destroy_witness :
    recreate_swap_chain 7 8 sample_polls = some (sample_rebuild_events, 8) ∧
    (∃ e : Extent, ∃ pre mid post : List RebuildEvent,
      sample_rebuild_events = pre ++ (RebuildEvent.createSwapchain e 7 :: mid) ++
        (RebuildEvent.destroySwapchain 7 :: post) ∧
      pre.countP is_destroy_event = 0 ∧ mid.countP is_destroy_event = 0) :=
  ⟨by decide,
   c6_create_before_destroy 7 8 sample_polls sample_rebuild_events 8 (by decide)⟩

/-- C7 (counterexample): calling the geometry load entry point with empty
(zero-element) vertex data in every category does not fail: no exception
is thrown — in particular no empty-upload error — and the call is
accepted, setting the `m_data_loaded` flag. -/
theorem c7_empty_load_counterexample :
    (load_input_data init_app_state empty_input).2 = none ∧
    (load_input_data init_app_state empty_input).1 =
      { init_app_state with data_loaded := true } := by
  decide

/-- C7 (amended): calling the geometry load entry point with empty
(zero-element) vertex data in every category succeeds silently rather
than failing: every empty category is skipped (no staging buffer is
created, no flag of any `vertex_draw_info` changes) and `m_data_loaded`
is still set, so no empty-upload error exists on this path. -/
theorem c7_empty_load_amended (s : AppDrawState) (h : s.data_loaded = false) :
    load_input_data s ⟨[], [], []⟩ = ({ s with data_loaded := true }, none) := by
  simp [load_input_data, h]

/-- C7 (witness): the amended behaviour at the freshly constructed
application state. -/
theorem c7_empty_load_amended_witness :
    init_app_state.data_loaded = false ∧
    load_input_data init_app_state ⟨[], [], []⟩ =
      ({ init_app_state with data_loaded := true }, none) :=
  ⟨by decide, c7_empty_load_amended init_app_state (by decide)⟩

/-- C8: after any successful first load, a second call to the geometry
load entry point throws the already-loaded error as its very first action
and leaves the application state — in particular the loaded buffers —
unchanged. -/
theorem c8_second_load_fails (s : AppDrawState) (d1 d2 : InputData)
    (h : s.data_loaded = false) :
    (load_input_data s d1).2 = none ∧
    load_input_data (load_input_data s d1).1 d2 =
      ((load_input_data s d1).1, some AppException.alreadyLoaded) := by
  have h1 : (load_input_data s d1).1.data_loaded = true := by
    simp [load_input_data, h]
  refine ⟨by simp [load_input_data, h], ?_⟩
  rw [load_input_data]
  simp [h1]

/-- C8 (witness): loading sample data twice from the fresh state. -/
theorem c8_second_load_fails_witness :
    init_app_state.data_loaded = false ∧
    ((load_input_data init_app_state sample_input).2 = none ∧
     load_input_data (load_input_data init_app_state sample_input).1 sample_input =
       ((load_input_data init_app_state sample_input).1,
        some AppException.alreadyLoaded)) :=
  ⟨by decide, c8_second_load_fails init_app_state sample_input sample_input (by decide)⟩
